import Mathlib

/-!
Shallow embedding of the quiz state & scoring engine of quiz_manager.py
(class QuizManager) together with the answer-resolution path of
bot_handlers.py (TelegramQuizBot.handle_answer).

Modelling conventions:
* Python dicts become functions into Option; a missing key is none.
* Calendar dates (the %Y-%m-%d strings produced by datetime.now())
  become integers counting days; "yesterday" is d - 1.  Equality of the
  date strings coincides with equality of the day numbers.
* User ids (the str(user_id) keys) are modelled as Nat, chat ids as Int.
* random.shuffle and random.choice are modelled as explicit function
  parameters (shuffle, pick); theorems depending on the shuffle assume
  only that its output is a permutation of its input.
* File I/O: save_data / load_data act on a FileState record holding the
  JSON values of the four data files; json.dump / json.load round trips
  are the identity on these values, and save_data models the
  force(equals)True call of the source (the non-forced call merely skips
  the write when the 5-minute throttle interval has not elapsed).
-/

namespace QuizManager

/-- A stored question: question text, options list and 0-based
correct_answer (kept as Int, since Python ints can be negative). -/
structure Question where
  question : String
  options : List String
  correct_answer : Int
deriving Repr, DecidableEq

/-- One day's entry of a daily_activity dict: attempts and correct counters. -/
structure DayActivity where
  attempts : Nat
  correct : Nat
deriving Repr, DecidableEq

/-- Per-(user, chat) statistics: the dict created on demand by
record_group_attempt (quiz_manager.py lines 388-398). -/
structure GroupStats where
  total_quizzes : Nat
  correct_answers : Nat
  score : Nat
  last_activity_date : Option Int
  daily_activity : Int → Option DayActivity
  current_streak : Nat
  longest_streak : Nat
  last_correct_date : Option Int

/-- Per-user statistics: the dict created by _init_user_stats
(quiz_manager.py lines 186-204). -/
structure UserStats where
  total_quizzes : Nat
  correct_answers : Nat
  current_streak : Nat
  longest_streak : Nat
  last_correct_date : Option Int
  category_scores : String → Option Nat
  daily_activity : Int → Option DayActivity
  last_quiz_date : Option Int
  groups : Int → Option GroupStats

/-- _init_user_stats: fresh per-user stats for current day d
(daily_activity starts with an all-zero entry for today,
last_quiz_date is today). -/
def init_user_stats (d : Int) : UserStats :=
  { total_quizzes := 0
    correct_answers := 0
    current_streak := 0
    longest_streak := 0
    last_correct_date := none
    category_scores := fun _ => none
    daily_activity := Function.update (fun _ => none) d (some ⟨0, 0⟩)
    last_quiz_date := some d
    groups := fun _ => none }

/-- The zeroed group-stats dict created by record_group_attempt for a
chat seen for the first time. -/
def init_group_stats : GroupStats :=
  { total_quizzes := 0
    correct_answers := 0
    score := 0
    last_activity_date := none
    daily_activity := fun _ => none
    current_streak := 0
    longest_streak := 0
    last_correct_date := none }

/-- The in-memory state of a QuizManager instance: the four persisted
collections (questions, scores, active_chats, stats) plus the per-chat
scheduling/tracking structures. -/
structure QMState where
  questions : List Question
  scores : Nat → Option Nat
  active_chats : List Int
  stats : Nat → Option UserStats
  recent_questions : Int → List String
  last_question_time : Int → String → Option Int
  available_questions : Int → List Nat

/-- A state with no questions, no scores, no stats and no tracking data. -/
def empty_state : QMState :=
  { questions := []
    scores := fun _ => none
    active_chats := []
    stats := fun _ => none
    recent_questions := fun _ => []
    last_question_time := fun _ _ => none
    available_questions := fun _ => [] }

/-- record_attempt (quiz_manager.py lines 520-577), with the current day
passed explicitly as d.  Faithful transcription: lazy stats init, bump
total_quizzes and last_quiz_date, bump today's daily attempts; on a
correct answer bump correct_answers, today's daily correct, update the
streak (increment when last_correct_date was exactly yesterday, else
reset to 1), longest_streak, last_correct_date, the score map (defaulting
a missing entry to 0) and the optional category counter; on an incorrect
answer reset current_streak to 0. -/
def record_attempt (user : Nat) (is_correct : Bool) (category : Option String)
    (d : Int) (s : QMState) : QMState :=
  let s0 := if (s.stats user).isSome then s
            else { s with stats := Function.update s.stats user (some (init_user_stats d)) }
  let st := (s0.stats user).getD (init_user_stats d)
  let st := { st with total_quizzes := st.total_quizzes + 1, last_quiz_date := some d }
  let da := (st.daily_activity d).getD ⟨0, 0⟩
  let st := { st with daily_activity :=
                Function.update st.daily_activity d (some { da with attempts := da.attempts + 1 }) }
  if is_correct then
    let da2 := (st.daily_activity d).getD ⟨0, 0⟩
    let st := { st with correct_answers := st.correct_answers + 1
                        daily_activity :=
                  Function.update st.daily_activity d (some { da2 with correct := da2.correct + 1 }) }
    let st := if st.last_correct_date = some (d - 1)
              then { st with current_streak := st.current_streak + 1 }
              else { st with current_streak := 1 }
    let st := { st with longest_streak := max st.current_streak st.longest_streak
                        last_correct_date := some d }
    let st :=
      match category with
      | none => st
      | some c => { st with category_scores :=
                      Function.update st.category_scores c (some ((st.category_scores c).getD 0 + 1)) }
    { s0 with stats := Function.update s0.stats user (some st)
              scores := Function.update s0.scores user (some ((s0.scores user).getD 0 + 1)) }
  else
    let st := { st with current_streak := 0 }
    { s0 with stats := Function.update s0.stats user (some st) }

/-- record_group_attempt (quiz_manager.py lines 371-432): updates the
per-chat group stats dict and then records the attempt in the general
stats via record_attempt (with no category).  The nested call recomputes
datetime.now(); both see the same day d. -/
def record_group_attempt (user : Nat) (chat : Int) (is_correct : Bool)
    (d : Int) (s : QMState) : QMState :=
  let s0 := if (s.stats user).isSome then s
            else { s with stats := Function.update s.stats user (some (init_user_stats d)) }
  let st := (s0.stats user).getD (init_user_stats d)
  let g := (st.groups chat).getD init_group_stats
  let g := { g with total_quizzes := g.total_quizzes + 1, last_activity_date := some d }
  let da := (g.daily_activity d).getD ⟨0, 0⟩
  let g := { g with daily_activity :=
               Function.update g.daily_activity d (some { da with attempts := da.attempts + 1 }) }
  let g :=
    if is_correct then
      let da2 := (g.daily_activity d).getD ⟨0, 0⟩
      let g := { g with correct_answers := g.correct_answers + 1
                        score := g.score + 1
                        daily_activity :=
                   Function.update g.daily_activity d (some { da2 with correct := da2.correct + 1 }) }
      let g := if g.last_correct_date = some (d - 1)
               then { g with current_streak := g.current_streak + 1 }
               else { g with current_streak := 1 }
      { g with longest_streak := max g.current_streak g.longest_streak
               last_correct_date := some d }
    else
      { g with current_streak := 0 }
  let st := { st with groups := Function.update st.groups chat (some g) }
  let s1 := { s0 with stats := Function.update s0.stats user (some st) }
  record_attempt user is_correct none d s1

/-- increment_score (quiz_manager.py lines 695-713): bumps the score map,
overwrites correct_answers with the new score, sets total_quizzes to
max(total_quizzes + 1, correct_answers), then calls record_attempt with
is_correct True. -/
def increment_score (user : Nat) (d : Int) (s : QMState) : QMState :=
  let s0 := if (s.stats user).isSome then s
            else { s with stats := Function.update s.stats user (some (init_user_stats d)) }
  let s1 := if (s0.scores user).isSome then s0
            else { s0 with scores := Function.update s0.scores user (some 0) }
  let n := (s1.scores user).getD 0 + 1
  let s2 := { s1 with scores := Function.update s1.scores user (some n) }
  let st := (s2.stats user).getD (init_user_stats d)
  let st := { st with correct_answers := n
                      total_quizzes := max (st.total_quizzes + 1) n }
  let s3 := { s2 with stats := Function.update s2.stats user (some st) }
  record_attempt user true none d s3

/-- The scoring part of TelegramQuizBot.handle_answer (bot_handlers.py
lines 68-103), after the open-poll record has been found: correctness is
correct_option_id among the chosen option_ids; a correct answer first
goes through increment_score, and in every case record_group_attempt is
invoked. -/
def handle_answer (user : Nat) (chat : Int) (correct_option_id : Int)
    (option_ids : List Int) (d : Int) (s : QMState) : QMState :=
  let is_correct := option_ids.contains correct_option_id
  let s1 := if is_correct then increment_score user d s else s
  record_group_attempt user chat is_correct d s1

/-- get_score (quiz_manager.py line 715-716): score map lookup with
default 0. -/
def get_score (s : QMState) (u : Nat) : Nat :=
  (s.scores u).getD 0

/-- View: a user's global correct_answers counter (0 when the user has
no stats entry). -/
def correctOf (s : QMState) (u : Nat) : Nat :=
  ((s.stats u).map UserStats.correct_answers).getD 0

/-- View: a user's global total_quizzes counter. -/
def totalOf (s : QMState) (u : Nat) : Nat :=
  ((s.stats u).map UserStats.total_quizzes).getD 0

/-- View: a user's current_streak. -/
def streakOf (s : QMState) (u : Nat) : Nat :=
  ((s.stats u).map UserStats.current_streak).getD 0

/-- View: a user's longest_streak. -/
def longestOf (s : QMState) (u : Nat) : Nat :=
  ((s.stats u).map UserStats.longest_streak).getD 0

/-- View: a user's last_correct_date. -/
def lastCorrectOf (s : QMState) (u : Nat) : Option Int :=
  ((s.stats u).map UserStats.last_correct_date).getD none

/-- View: a user's last_quiz_date. -/
def lastQuizOf (s : QMState) (u : Nat) : Option Int :=
  ((s.stats u).map UserStats.last_quiz_date).getD none

/-- View: a user's counter for one category. -/
def categoryOf (s : QMState) (u : Nat) (c : String) : Nat :=
  (((s.stats u).map UserStats.category_scores).getD (fun _ => none) c).getD 0

/-- View: a user's daily_activity attempts counter for one day. -/
def dailyAttemptsOf (s : QMState) (u : Nat) (d : Int) : Nat :=
  ((((s.stats u).map UserStats.daily_activity).getD (fun _ => none) d).getD ⟨0, 0⟩).attempts

/-- View: a user's daily_activity correct counter for one day. -/
def dailyCorrectOf (s : QMState) (u : Nat) (d : Int) : Nat :=
  ((((s.stats u).map UserStats.daily_activity).getD (fun _ => none) d).getD ⟨0, 0⟩).correct

/-- View: a user's correct_answers counter inside one chat's group stats. -/
def groupCorrectOf (s : QMState) (u : Nat) (chat : Int) : Nat :=
  ((((s.stats u).map UserStats.groups).getD (fun _ => none) chat).map GroupStats.correct_answers).getD 0

/-- The durable contents of the four data files (questions.json,
scores.json, active_chats.json, user_stats.json) as JSON values. -/
structure FileState where
  questions_file : List Question
  scores_file : Nat → Option Nat
  active_chats_file : List Int
  stats_file : Nat → Option UserStats

/-- save_data with force(equals)True (quiz_manager.py lines 160-184):
dumps the four in-memory collections verbatim to their files. -/
def save_data (s : QMState) : FileState :=
  { questions_file := s.questions
    scores_file := s.scores
    active_chats_file := s.active_chats
    stats_file := s.stats }

/-- Python str.strip on the character list of a string: drop leading
and trailing whitespace. -/
def py_strip (s : String) : String :=
  ⟨((s.data.dropWhile Char.isWhitespace).reverse.dropWhile Char.isWhitespace).reverse⟩

/-- Python str.startswith on character lists. -/
def chars_start : List Char → List Char → Bool
  | _, [] => true
  | [], _ :: _ => false
  | c :: cs, p :: ps => (c == p) && chars_start cs ps

/-- Python str.startswith. -/
def py_startswith (s pre : String) : Bool :=
  chars_start s.data pre.data

/-- Python slicing s[n:] (by code points, as in the source). -/
def py_drop (s : String) (n : Nat) : String :=
  ⟨s.data.drop n⟩

/-- Python str.lower (ASCII case folding, which covers the stored
texts). -/
def py_lower (s : String) : String :=
  ⟨s.data.map Char.toLower⟩

/-- Python len on a string: its number of code points. -/
def py_len (s : String) : Nat :=
  s.data.length

/-- The "ensure correct_answer is zero-based" normalisation applied both
by load_data (lines 97-99) and by add_questions (lines 624-625): a
positive index is decremented, any other value is kept. -/
def normalize_correct_answer (ca : Int) : Int :=
  if 0 < ca then ca - 1 else ca

/-- The per-question cleanup step of load_data (quiz_manager.py lines
83-107): strip the text and skip if empty, then strip a leading /addquiz
token, decrement a positive correct_answer (the "ensure zero-based"
normalisation), and keep the entry only when it has exactly 4 options. -/
def clean_question (q : Question) : Option Question :=
  let t := py_strip q.question
  if t = "" then none
  else
    let t2 := if py_startswith t "/addquiz" then py_strip (py_drop t 8) else t
    let ca := normalize_correct_answer q.correct_answer
    if q.options.length = 4 then some ⟨t2, q.options, ca⟩ else none

/-- validate_question (quiz_manager.py lines 760-777): the three keys are
present (structural in this embedding), options is a list of exactly 4
entries, and correct_answer is an int with 0 <= correct_answer < 4.
Emptiness of the text or of individual options is not checked. -/
def validate_question (q : Question) : Bool :=
  (q.options.length == 4) && decide (0 ≤ q.correct_answer) && decide (q.correct_answer < 4)

/-- remove_invalidquestions (quiz_manager.py lines 779-797): keep only
the questions that pass validate_question. -/
def remove_invalidquestions (qs : List Question) : List Question :=
  qs.filter validate_question

/-- The questions part of load_data: per-entry cleanup followed by
remove_invalidquestions. -/
def load_questions (raw : List Question) : List Question :=
  remove_invalidquestions (raw.filterMap clean_question)

/-- load_data (quiz_manager.py lines 64-158): loads the four files
(questions run through cleanup and validation; the entries of the other
three files parse back to the values that were dumped), and resets the
tracking structures recent_questions, last_question_time and
available_questions. -/
def load_data (f : FileState) : QMState :=
  { questions := load_questions f.questions_file
    scores := f.scores_file
    active_chats := f.active_chats_file
    stats := f.stats_file
    recent_questions := fun _ => []
    last_question_time := fun _ _ => none
    available_questions := fun _ => [] }

/-- The rejection/acceptance counters returned by add_questions
(quiz_manager.py lines 581-589); the errors list is modelled by its
length. -/
structure AddResult where
  added : Nat
  rejected_duplicates : Nat
  rejected_invalid_format : Nat
  rejected_invalid_options : Nat
  errors : Nat
deriving Repr, DecidableEq

/-- The all-zero counters add_questions starts from. -/
def AddResult.zero : AddResult :=
  { added := 0, rejected_duplicates := 0, rejected_invalid_format := 0
    rejected_invalid_options := 0, errors := 0 }

/-- The text cleanup add_questions applies before any check: strip, then
strip a leading /addquiz token. -/
def clean_text (t : String) : String :=
  let t1 := py_strip t
  if py_startswith t1 "/addquiz" then py_strip (py_drop t1 8) else t1

/-- One iteration of the add_questions loop (quiz_manager.py lines
598-667), processing one candidate against the stored questions (the
store is only extended after the whole loop, so every candidate is
checked against the same stored list).  A candidate arriving with a
string correct_answer is modelled after its int conversion; a candidate
missing one of the three keys is outside this typed embedding. -/
def add_questions_step (stored : List Question) (acc : AddResult × List Question)
    (r : Question) : AddResult × List Question :=
  let st := acc.1
  let addedqs := acc.2
  let q := clean_text r.question
  let opts := r.options.map py_strip
  let ca := normalize_correct_answer r.correct_answer
  if q = "" ∨ py_len q < 5 then
    ({ st with rejected_invalid_format := st.rejected_invalid_format + 1
               errors := st.errors + 1 }, addedqs)
  else if stored.any (fun sq => py_lower sq.question == py_lower q) then
    ({ st with rejected_duplicates := st.rejected_duplicates + 1
               errors := st.errors + 1 }, addedqs)
  else if opts.length ≠ 4 ∨ opts.any (· == "") then
    ({ st with rejected_invalid_options := st.rejected_invalid_options + 1
               errors := st.errors + 1 }, addedqs)
  else if ¬ (0 ≤ ca ∧ ca < 4) then
    ({ st with rejected_invalid_format := st.rejected_invalid_format + 1
               errors := st.errors + 1 }, addedqs)
  else
    ({ st with added := st.added + 1 }, addedqs ++ [⟨q, opts, ca⟩])

/-- add_questions (quiz_manager.py lines 579-676): reject batches over
500 outright, process each candidate independently, and extend the store
with the accepted ones when at least one was accepted. -/
def add_questions (batch : List Question) (s : QMState) : AddResult × QMState :=
  if batch.length > 500 then
    ({ AddResult.zero with errors := 1 }, s)
  else
    let res := batch.foldl (add_questions_step s.questions) (AddResult.zero, [])
    if res.1.added > 0 then (res.1, { s with questions := s.questions ++ res.2 })
    else (res.1, s)

/-- The deque(maxlen 50) append used for recent_questions: push and keep
the last 50 entries. -/
def deque_push50 (l : List String) (x : String) : List String :=
  let l2 := l ++ [x]
  l2.drop (l2.length - 50)

/-- _initialize_available_questions (quiz_manager.py lines 434-438):
set the chat's pool to a shuffle of all current question indices. -/
def initialize_available_questions (shuffle : List Nat → List Nat)
    (chat : Int) (s : QMState) : QMState :=
  { s with available_questions :=
      Function.update s.available_questions chat (shuffle (List.range s.questions.length)) }

/-- get_random_question (quiz_manager.py lines 440-476), with the
current time now and the random primitives passed explicitly.  Empty
store returns none; a falsy chat_id (None or 0) falls back to pick over
all questions; otherwise the chat's pool is (re)initialized when absent
or empty, the last index is popped, the question is looked up (a failed
lookup is the IndexError path, which falls back to pick after the pop),
tracking structures are updated and an emptied pool is reinitialized. -/
def get_random_question (shuffle : List Nat → List Nat)
    (pick : List Question → Option Question) (now : Int)
    (chat_id : Option Int) (s : QMState) : Option Question × QMState :=
  if s.questions = [] then (none, s)
  else if chat_id = none ∨ chat_id = some 0 then (pick s.questions, s)
  else
    let chat := chat_id.getD 0
    let s1 := if s.available_questions chat = []
              then initialize_available_questions shuffle chat s else s
    match (s1.available_questions chat).getLast? with
    | none => (pick s.questions, s1)
    | some i =>
      let pool2 := (s1.available_questions chat).dropLast
      let s2 := { s1 with available_questions := Function.update s1.available_questions chat pool2 }
      match s2.questions[i]? with
      | none => (pick s2.questions, s2)
      | some q =>
        let recent2 := deque_push50 (s2.recent_questions chat) q.question
        let times2 := Function.update (s2.last_question_time chat) q.question (some now)
        let s3 := { s2 with
          recent_questions := Function.update s2.recent_questions chat recent2
          last_question_time := Function.update s2.last_question_time chat times2 }
        let s4 := if s3.available_questions chat = []
                  then initialize_available_questions shuffle chat s3 else s3
        (some q, s4)

/-- Iterate get_random_question n times for one chat, collecting the
returned payloads in call order. -/
def run_gets (shuffle : List Nat → List Nat)
    (pick : List Question → Option Question) (now : Int) (chat : Int) :
    Nat → QMState → List (Option Question) × QMState
  | 0, s => ([], s)
  | n + 1, s =>
    let r := get_random_question shuffle pick now (some chat) s
    let rest := run_gets shuffle pick now chat n r.2
    (r.1 :: rest.1, rest.2)

/-- Iterate record_attempt over a list of calls
(user, is_correct, category, day), in order. -/
def run_attempts : List (Nat × Bool × Option String × Int) → QMState → QMState
  | [], s => s
  | (u, b, c, d) :: rest, s => run_attempts rest (record_attempt u b c d s)

/-! Concrete instances used as test vectors. -/

/-- The question of the end-to-end scenario of the spec, stored with
0-based correct_answer 1 (Paris). -/
def franceQ : Question :=
  ⟨"Capital of France?", ["London", "Paris", "Berlin", "Madrid"], 1⟩

/-- A second valid question. -/
def q2 : Question :=
  ⟨"Largest planet?", ["Mars", "Venus", "Jupiter", "Saturn"], 2⟩

/-- A state whose store holds exactly the France question. -/
def france_state : QMState :=
  { empty_state with questions := [franceQ] }

/-- A state whose store holds two questions. -/
def two_question_state : QMState :=
  { empty_state with questions := [franceQ, q2] }

/-- A question that passes validate_question although its second option
is the empty string. -/
def bad_option_q : Question :=
  ⟨"Valid question?", ["alpha", "", "gamma", "delta"], 0⟩

/-- A user-stats entry of a user whose last correct answer was on day 0
and whose current streak is 2. -/
def streak2_stats : UserStats :=
  { total_quizzes := 9
    correct_answers := 5
    current_streak := 2
    longest_streak := 3
    last_correct_date := some 0
    category_scores := fun _ => none
    daily_activity := Function.update (fun _ => none) 0 (some ⟨2, 1⟩)
    last_quiz_date := some 0
    groups := fun _ => none }

/-- A state in which user 1 has the streak2_stats entry and score 5. -/
def streak2_state : QMState :=
  { empty_state with
    stats := Function.update (fun _ => none) 1 (some streak2_stats)
    scores := Function.update (fun _ => none) 1 (some 5) }

/-! Computation lemmas about record_attempt. -/

lemma record_attempt_scores_eq (u : Nat) (b : Bool) (c : Option String) (d : Int) (s : QMState) :
    (record_attempt u b c d s).scores =
      if b then Function.update s.scores u (some ((s.scores u).getD 0 + 1)) else s.scores := by
  cases b <;> cases hst : s.stats u <;> simp [record_attempt, hst]

lemma record_attempt_stats_ne (u v : Nat) (b : Bool) (c : Option String) (d : Int) (s : QMState)
    (h : v ≠ u) : (record_attempt u b c d s).stats v = s.stats v := by
  cases b <;> cases hst : s.stats u <;>
    simp [record_attempt, hst, Function.update_noteq h]

lemma record_attempt_questions (u : Nat) (b : Bool) (c : Option String) (d : Int) (s : QMState) :
    (record_attempt u b c d s).questions = s.questions := by
  cases b <;> cases hst : s.stats u <;> simp [record_attempt, hst]

lemma record_attempt_active_chats (u : Nat) (b : Bool) (c : Option String) (d : Int) (s : QMState) :
    (record_attempt u b c d s).active_chats = s.active_chats := by
  cases b <;> cases hst : s.stats u <;> simp [record_attempt, hst]

lemma record_attempt_available (u : Nat) (b : Bool) (c : Option String) (d : Int) (s : QMState) :
    (record_attempt u b c d s).available_questions = s.available_questions := by
  cases b <;> cases hst : s.stats u <;> simp [record_attempt, hst]

lemma correctOf_record_attempt_true (u : Nat) (c : Option String) (d : Int) (s : QMState) :
    correctOf (record_attempt u true c d s) u = correctOf s u + 1 := by
  cases c <;> cases hst : s.stats u <;>
    simp [record_attempt, correctOf, hst, init_user_stats] <;>
    first
    | rfl
    | (split <;> rfl)

lemma streakOf_record_attempt_true (u : Nat) (c : Option String) (d : Int) (s : QMState) :
    streakOf (record_attempt u true c d s) u =
      if lastCorrectOf s u = some (d - 1) then streakOf s u + 1 else 1 := by
  cases c <;> cases hst : s.stats u <;>
    simp [record_attempt, streakOf, lastCorrectOf, hst, init_user_stats] <;> split <;> simp_all

lemma lastCorrectOf_record_attempt_true (u : Nat) (c : Option String) (d : Int) (s : QMState) :
    lastCorrectOf (record_attempt u true c d s) u = some d := by
  cases c <;> cases hst : s.stats u <;>
    simp [record_attempt, lastCorrectOf, hst, init_user_stats]

lemma streakOf_record_attempt_false (u : Nat) (c : Option String) (d : Int) (s : QMState) :
    streakOf (record_attempt u false c d s) u = 0 := by
  cases hst : s.stats u <;> simp [record_attempt, streakOf, hst]

lemma correctOf_record_attempt_false (u : Nat) (c : Option String) (d : Int) (s : QMState) :
    correctOf (record_attempt u false c d s) u = correctOf s u := by
  cases hst : s.stats u <;> simp [record_attempt, correctOf, hst, init_user_stats]

lemma longestOf_record_attempt_false (u : Nat) (c : Option String) (d : Int) (s : QMState) :
    longestOf (record_attempt u false c d s) u = longestOf s u := by
  cases hst : s.stats u <;> simp [record_attempt, longestOf, hst, init_user_stats]

lemma lastCorrectOf_record_attempt_false (u : Nat) (c : Option String) (d : Int) (s : QMState) :
    lastCorrectOf (record_attempt u false c d s) u = lastCorrectOf s u := by
  cases hst : s.stats u <;> simp [record_attempt, lastCorrectOf, hst, init_user_stats]

lemma categoryOf_record_attempt_false (u : Nat) (c : Option String) (d : Int) (s : QMState)
    (cc : String) : categoryOf (record_attempt u false c d s) u cc = categoryOf s u cc := by
  cases hst : s.stats u <;> simp [record_attempt, categoryOf, hst, init_user_stats]

lemma dailyCorrectOf_record_attempt_false (u : Nat) (c : Option String) (d d' : Int) (s : QMState) :
    dailyCorrectOf (record_attempt u false c d s) u d' = dailyCorrectOf s u d' := by
  by_cases hd : d' = d <;>
    cases hst : s.stats u <;>
      simp [record_attempt, dailyCorrectOf, hst, init_user_stats, Function.update_apply, hd]

lemma dailyAttemptsOf_record_attempt_false (u : Nat) (c : Option String) (d d' : Int) (s : QMState) :
    dailyAttemptsOf (record_attempt u false c d s) u d' =
      dailyAttemptsOf s u d' + if d' = d then 1 else 0 := by
  by_cases hd : d' = d <;>
    cases hst : s.stats u <;>
      simp [record_attempt, dailyAttemptsOf, hst, init_user_stats, Function.update_apply, hd]

lemma totalOf_record_attempt_false (u : Nat) (c : Option String) (d : Int) (s : QMState) :
    totalOf (record_attempt u false c d s) u = totalOf s u + 1 := by
  cases hst : s.stats u <;> simp [record_attempt, totalOf, hst, init_user_stats]

lemma lastQuizOf_record_attempt_false (u : Nat) (c : Option String) (d : Int) (s : QMState) :
    lastQuizOf (record_attempt u false c d s) u = some d := by
  cases hst : s.stats u <;> simp [record_attempt, lastQuizOf, hst]

lemma correctOf_record_attempt_ne (u v : Nat) (b : Bool) (c : Option String) (d : Int)
    (s : QMState) (h : v ≠ u) : correctOf (record_attempt u b c d s) v = correctOf s v := by
  unfold correctOf
  rw [record_attempt_stats_ne u v b c d s h]

lemma record_attempt_preserves_score_inv (v : Nat) (b : Bool) (c : Option String) (d : Int)
    (s : QMState) (u : Nat) (h : get_score s u = correctOf s u) :
    get_score (record_attempt v b c d s) u = correctOf (record_attempt v b c d s) u := by
  by_cases huv : u = v
  · subst huv
    cases b
    · rw [get_score, record_attempt_scores_eq, correctOf_record_attempt_false]
      simpa [get_score] using h
    · rw [get_score, record_attempt_scores_eq, correctOf_record_attempt_true]
      simpa [get_score] using h
  · rw [get_score, record_attempt_scores_eq, correctOf_record_attempt_ne v u b c d s huv]
    cases b
    · simpa [get_score] using h
    · simpa [get_score, Function.update_noteq huv] using h

/-- C7: starting from a user with no stats entry, correct answers on
days D, D+1 and D+2 leave current_streak at 3; an incorrect answer on
day D+3 then resets it to 0; and answering correctly on day D and next
on day D+2 (skipping D+1) leaves current_streak at 1. -/
theorem C7_streak_scenarios (u : Nat) (D : Int) (s : QMState) (h : s.stats u = none) :
    streakOf (record_attempt u true none (D + 2)
      (record_attempt u true none (D + 1) (record_attempt u true none D s))) u = 3 ∧
    streakOf (record_attempt u false none (D + 3)
      (record_attempt u true none (D + 2)
        (record_attempt u true none (D + 1) (record_attempt u true none D s)))) u = 0 ∧
    streakOf (record_attempt u true none (D + 2) (record_attempt u true none D s)) u = 1 := by
  have hlc0 : lastCorrectOf s u = none := by simp [lastCorrectOf, h]
  have e1 : D + 1 - 1 = D := by ring
  have e2 : D + 2 - 1 = D + 1 := by ring
  have ne1 : ¬ (D = D + 1) := by omega
  refine ⟨?_, ?_, ?_⟩
  · simp [streakOf_record_attempt_true, lastCorrectOf_record_attempt_true, hlc0, e1, e2]
  · simp [streakOf_record_attempt_false]
  · simp [streakOf_record_attempt_true, lastCorrectOf_record_attempt_true, hlc0, e2, ne1]

/-- Witness for C7 at user 1, day 10, on the empty state. -/
theorem C7_streak_scenarios_witness :
    empty_state.stats 1 = none ∧
    (streakOf (record_attempt 1 true none 12
      (record_attempt 1 true none 11 (record_attempt 1 true none 10 empty_state))) 1 = 3 ∧
    streakOf (record_attempt 1 false none 13
      (record_attempt 1 true none 12
        (record_attempt 1 true none 11 (record_attempt 1 true none 10 empty_state)))) 1 = 0 ∧
    streakOf (record_attempt 1 true none 12 (record_attempt 1 true none 10 empty_state)) 1 = 1) :=
  ⟨rfl, by simpa using C7_streak_scenarios 1 10 empty_state rfl⟩

/-- C6 counterexample: user 1 of streak2_state has current_streak 2 and
last_correct_date equal to today (day 0); a further correct
record_attempt on day 0 sets current_streak to 1, not 2 as the claim
states. -/
theorem C6_counterexample :
    streakOf streak2_state 1 = 2 ∧
    lastCorrectOf streak2_state 1 = some 0 ∧
    streakOf (record_attempt 1 true none 0 streak2_state) 1 = 1 := by
  refine ⟨rfl, rfl, ?_⟩
  simp [streakOf_record_attempt_true]
  decide

/-- C6 amended: when a user's last_correct_date is already today, a
further correct record_attempt on the same day sets current_streak to 1
(so the streak is unchanged only in the case k = 1): the code compares
last_correct_date against yesterday only, and today is never yesterday. -/
theorem C6_amended_same_day_correct_sets_streak_one (s : QMState) (u : Nat) (d : Int)
    (h : lastCorrectOf s u = some d) :
    streakOf (record_attempt u true none d s) u = 1 := by
  have hne : ¬ (d = d - 1) := by omega
  simp [streakOf_record_attempt_true, h, hne]

/-- Witness for the amended C6 on streak2_state at day 0. -/
theorem C6_amended_witness :
    lastCorrectOf streak2_state 1 = some 0 ∧
    streakOf (record_attempt 1 true none 0 streak2_state) 1 = 1 :=
  ⟨rfl, C6_amended_same_day_correct_sets_streak_one streak2_state 1 0 rfl⟩

/-- C3: for a user with no scores entry and no stats entry, after any
sequence of record_attempt calls the score map entry equals the user's
correct_answers counter. -/
theorem C3_score_equals_correct_count (calls : List (Nat × Bool × Option String × Int))
    (u : Nat) (s : QMState) (h1 : s.stats u = none) (h2 : s.scores u = none) :
    get_score (run_attempts calls s) u = correctOf (run_attempts calls s) u := by
  have hinv : get_score s u = correctOf s u := by simp [get_score, correctOf, h1, h2]
  clear h1 h2
  induction calls generalizing s with
  | nil => exact hinv
  | cons head tail ih =>
    obtain ⟨v, b, c, d⟩ := head
    exact ih _ (record_attempt_preserves_score_inv v b c d s u hinv)

/-- Witness for C3: two calls (a correct and an incorrect answer) from
the empty state. -/
theorem C3_score_equals_correct_count_witness :
    empty_state.stats 1 = none ∧ empty_state.scores 1 = none ∧
    get_score (run_attempts [(1, true, none, 0), (1, false, none, 1)] empty_state) 1 =
      correctOf (run_attempts [(1, true, none, 0), (1, false, none, 1)] empty_state) 1 :=
  ⟨rfl, rfl, C3_score_equals_correct_count [(1, true, none, 0), (1, false, none, 1)]
    1 empty_state rfl rfl⟩

/-- C10: an incorrect record_attempt changes only total_quizzes,
last_quiz_date, the day's daily attempts counter and current_streak
(reset to 0); the score map, correct_answers, longest_streak,
last_correct_date, category counters, daily correct counters, other
users' entries and the remaining collections are untouched. -/
theorem C10_incorrect_attempt_frame (s : QMState) (u v : Nat) (c : Option String)
    (d dd : Int) (cc : String) (hv : v ≠ u) :
    (record_attempt u false c d s).scores = s.scores ∧
    correctOf (record_attempt u false c d s) u = correctOf s u ∧
    longestOf (record_attempt u false c d s) u = longestOf s u ∧
    lastCorrectOf (record_attempt u false c d s) u = lastCorrectOf s u ∧
    categoryOf (record_attempt u false c d s) u cc = categoryOf s u cc ∧
    dailyCorrectOf (record_attempt u false c d s) u dd = dailyCorrectOf s u dd ∧
    totalOf (record_attempt u false c d s) u = totalOf s u + 1 ∧
    lastQuizOf (record_attempt u false c d s) u = some d ∧
    streakOf (record_attempt u false c d s) u = 0 ∧
    dailyAttemptsOf (record_attempt u false c d s) u dd =
      dailyAttemptsOf s u dd + (if dd = d then 1 else 0) ∧
    (record_attempt u false c d s).stats v = s.stats v ∧
    (record_attempt u false c d s).questions = s.questions ∧
    (record_attempt u false c d s).active_chats = s.active_chats ∧
    (record_attempt u false c d s).available_questions = s.available_questions :=
  ⟨by rw [record_attempt_scores_eq]; simp,
   correctOf_record_attempt_false u c d s,
   longestOf_record_attempt_false u c d s,
   lastCorrectOf_record_attempt_false u c d s,
   categoryOf_record_attempt_false u c d s cc,
   dailyCorrectOf_record_attempt_false u c d dd s,
   totalOf_record_attempt_false u c d s,
   lastQuizOf_record_attempt_false u c d s,
   streakOf_record_attempt_false u c d s,
   dailyAttemptsOf_record_attempt_false u c d dd s,
   record_attempt_stats_ne u v false c d s hv,
   record_attempt_questions u false c d s,
   record_attempt_active_chats u false c d s,
   record_attempt_available u false c d s⟩

/-- Witness for C10 on streak2_state: user 1 answers incorrectly on day
5; user 2 and day 0 are the untouched frame samples. -/
theorem C10_incorrect_attempt_frame_witness :
    (2 : Nat) ≠ 1 ∧
    ((record_attempt 1 false none 5 streak2_state).scores = streak2_state.scores ∧
    correctOf (record_attempt 1 false none 5 streak2_state) 1 = correctOf streak2_state 1 ∧
    longestOf (record_attempt 1 false none 5 streak2_state) 1 = longestOf streak2_state 1 ∧
    lastCorrectOf (record_attempt 1 false none 5 streak2_state) 1 =
      lastCorrectOf streak2_state 1 ∧
    categoryOf (record_attempt 1 false none 5 streak2_state) 1 "geo" =
      categoryOf streak2_state 1 "geo" ∧
    dailyCorrectOf (record_attempt 1 false none 5 streak2_state) 1 0 =
      dailyCorrectOf streak2_state 1 0 ∧
    totalOf (record_attempt 1 false none 5 streak2_state) 1 = totalOf streak2_state 1 + 1 ∧
    lastQuizOf (record_attempt 1 false none 5 streak2_state) 1 = some 5 ∧
    streakOf (record_attempt 1 false none 5 streak2_state) 1 = 0 ∧
    dailyAttemptsOf (record_attempt 1 false none 5 streak2_state) 1 0 =
      dailyAttemptsOf streak2_state 1 0 + (if (0 : Int) = 5 then 1 else 0) ∧
    (record_attempt 1 false none 5 streak2_state).stats 2 = streak2_state.stats 2 ∧
    (record_attempt 1 false none 5 streak2_state).questions = streak2_state.questions ∧
    (record_attempt 1 false none 5 streak2_state).active_chats = streak2_state.active_chats ∧
    (record_attempt 1 false none 5 streak2_state).available_questions =
      streak2_state.available_questions) :=
  ⟨by decide, C10_incorrect_attempt_frame streak2_state 1 2 none 5 0 "geo" (by decide)⟩

/-- C9: with an empty question store, get_random_question returns the
none signal for every chat_id, scoped or not, and leaves the state
unchanged (being a total function of the embedding, it raises nothing). -/
theorem C9_empty_store_returns_none (shuffle : List Nat → List Nat)
    (pick : List Question → Option Question) (now : Int) (chat_id : Option Int)
    (s : QMState) (h : s.questions = []) :
    (get_random_question shuffle pick now chat_id s).1 = none ∧
    (get_random_question shuffle pick now chat_id s).2 = s := by
  constructor <;> simp [get_random_question, h]

/-- Witness for C9 on the empty state with chat id 3. -/
theorem C9_empty_store_returns_none_witness :
    empty_state.questions = [] ∧
    (get_random_question id (fun _ => none) 0 (some 3) empty_state).1 = none ∧
    (get_random_question id (fun _ => none) 0 (some 3) empty_state).2 = empty_state :=
  ⟨rfl, C9_empty_store_returns_none id (fun _ => none) 0 (some 3) empty_state rfl⟩

/-- C1, evaluated at the failing input: a fresh user 7 resolving one
correct answer in chat 5 ends with score 3 and correct_answers 3 (not 1
as the claim states), because handle_answer runs increment_score (one
increment plus a record_attempt) and then record_group_attempt (another
record_attempt); only the group-scoped correct count ends at 1. -/
theorem C1_single_correct_answer_triple_counts :
    get_score (handle_answer 7 5 1 [1] 0 empty_state) 7 = 3 ∧
    correctOf (handle_answer 7 5 1 [1] 0 empty_state) 7 = 3 ∧
    groupCorrectOf (handle_answer 7 5 1 [1] 0 empty_state) 7 5 = 1 := by
  refine ⟨rfl, rfl, rfl⟩

/-- C2, evaluated at the failing input: a state holding one valid
question with correct_answer 1 does not round-trip through
save_data/load_data; load_data re-applies the 1-based-to-0-based
normalisation and decrements the stored index to 0. -/
theorem C2_round_trip_changes_correct_answer :
    (load_data (save_data france_state)).questions =
      [⟨"Capital of France?", ["London", "Paris", "Berlin", "Madrid"], 0⟩] ∧
    france_state.questions =
      [⟨"Capital of France?", ["London", "Paris", "Berlin", "Madrid"], 1⟩] ∧
    (load_data (save_data france_state)).questions ≠ france_state.questions := by
  refine ⟨rfl, rfl, by decide⟩

/-- C4 counterexample: a batch holding the same new valid question twice
is accepted twice - added is 2 and rejected.duplicates is 0, not 1 and 1
as the claim states, because add_questions checks duplicates against the
stored questions only, never against the batch in progress. -/
theorem C4_counterexample :
    (add_questions [franceQ, franceQ] empty_state).1.added = 2 ∧
    (add_questions [franceQ, franceQ] empty_state).1.rejected_duplicates = 0 ∧
    (add_questions [franceQ, franceQ] empty_state).2.questions.length = 2 := by
  refine ⟨rfl, rfl, rfl⟩

lemma add_questions_step_duplicate (stored : List Question) (acc : AddResult × List Question)
    (r : Question)
    (ha : ¬ (clean_text r.question = "" ∨ py_len (clean_text r.question) < 5))
    (hdup : stored.any
      (fun sq => py_lower sq.question == py_lower (clean_text r.question)) = true) :
    add_questions_step stored acc r =
      ({ acc.1 with rejected_duplicates := acc.1.rejected_duplicates + 1
                    errors := acc.1.errors + 1 }, acc.2) := by
  unfold add_questions_step
  rw [if_neg ha, if_pos hdup]

lemma add_questions_step_accept (stored : List Question) (acc : AddResult × List Question)
    (r : Question)
    (ha : ¬ (clean_text r.question = "" ∨ py_len (clean_text r.question) < 5))
    (hdup : ¬ stored.any
      (fun sq => py_lower sq.question == py_lower (clean_text r.question)) = true)
    (ho : ¬ ((r.options.map py_strip).length ≠ 4 ∨
      (r.options.map py_strip).any (fun o => o == "") = true))
    (hc : ¬ ¬ (0 ≤ normalize_correct_answer r.correct_answer ∧
      normalize_correct_answer r.correct_answer < 4)) :
    add_questions_step stored acc r =
      ({ acc.1 with added := acc.1.added + 1 },
       acc.2 ++ [⟨clean_text r.question, r.options.map py_strip,
                  normalize_correct_answer r.correct_answer⟩]) := by
  unfold add_questions_step
  rw [if_neg ha, if_neg hdup, if_neg ho, if_neg hc]

/-- C4 amended: a candidate whose cleaned text case-insensitively equals
a stored question's text is rejected with rejected.duplicates
incremented and nothing added; but duplicate detection does not consider
the batch in progress, so a batch of two identical new questions yields
added 2 and rejected.duplicates 0. -/
theorem C4_amended_duplicates_store_only (s : QMState) (r1 r2 : Question)
    (h1a : clean_text r1.question ≠ "")
    (h1b : 5 ≤ py_len (clean_text r1.question))
    (h1dup : s.questions.any
      (fun sq => py_lower sq.question == py_lower (clean_text r1.question)) = true)
    (h2a : clean_text r2.question ≠ "")
    (h2b : 5 ≤ py_len (clean_text r2.question))
    (h2dup : s.questions.any
      (fun sq => py_lower sq.question == py_lower (clean_text r2.question)) = false)
    (h2o : (r2.options.map py_strip).length = 4)
    (h2oe : (r2.options.map py_strip).any (fun o => o == "") = false)
    (h2c1 : 0 ≤ normalize_correct_answer r2.correct_answer)
    (h2c2 : normalize_correct_answer r2.correct_answer < 4) :
    ((add_questions [r1] s).1.rejected_duplicates = 1 ∧
     (add_questions [r1] s).1.added = 0 ∧
     (add_questions [r1] s).2 = s) ∧
    ((add_questions [r2, r2] s).1.added = 2 ∧
     (add_questions [r2, r2] s).1.rejected_duplicates = 0) := by
  have h1len : ¬ (clean_text r1.question = "" ∨ py_len (clean_text r1.question) < 5) := by
    push_neg
    exact ⟨h1a, by omega⟩
  have h2len : ¬ (clean_text r2.question = "" ∨ py_len (clean_text r2.question) < 5) := by
    push_neg
    exact ⟨h2a, by omega⟩
  have h2dupne : ¬ s.questions.any
      (fun sq => py_lower sq.question == py_lower (clean_text r2.question)) = true := by
    simp [h2dup]
  have h2opts : ¬ ((r2.options.map py_strip).length ≠ 4 ∨
      (r2.options.map py_strip).any (fun o => o == "") = true) := by
    push_neg
    exact ⟨h2o, by simp [h2oe]⟩
  have h2range : ¬ ¬ (0 ≤ normalize_correct_answer r2.correct_answer ∧
      normalize_correct_answer r2.correct_answer < 4) :=
    not_not_intro ⟨h2c1, h2c2⟩
  have hone : add_questions [r1] s =
      ({ AddResult.zero with rejected_duplicates := 1, errors := 1 }, s) := by
    unfold add_questions
    rw [if_neg (by norm_num)]
    simp only [List.foldl, add_questions_step_duplicate s.questions _ r1 h1len h1dup]
    rfl
  have htwo2 : add_questions [r2, r2] s =
      (({ AddResult.zero with added := 2 }),
       { s with questions := s.questions ++
          [⟨clean_text r2.question, r2.options.map py_strip,
            normalize_correct_answer r2.correct_answer⟩,
           ⟨clean_text r2.question, r2.options.map py_strip,
            normalize_correct_answer r2.correct_answer⟩] }) := by
    unfold add_questions
    rw [if_neg (by norm_num)]
    simp only [List.foldl,
      add_questions_step_accept s.questions _ r2 h2len h2dupne h2opts h2range]
    rfl
  refine ⟨⟨?_, ?_, ?_⟩, ?_, ?_⟩ <;> simp [hone, htwo2, AddResult.zero]

/-- Witness for the amended C4: franceQ duplicates the store of
france_state, while q2 is new and valid both times it appears in one
batch. -/
theorem C4_amended_duplicates_store_only_witness :
    (clean_text franceQ.question ≠ "" ∧
     5 ≤ py_len (clean_text franceQ.question) ∧
     france_state.questions.any
       (fun sq => py_lower sq.question == py_lower (clean_text franceQ.question)) = true ∧
     clean_text q2.question ≠ "" ∧
     5 ≤ py_len (clean_text q2.question) ∧
     france_state.questions.any
       (fun sq => py_lower sq.question == py_lower (clean_text q2.question)) = false ∧
     (q2.options.map py_strip).length = 4 ∧
     (q2.options.map py_strip).any (fun o => o == "") = false ∧
     0 ≤ normalize_correct_answer q2.correct_answer ∧
     normalize_correct_answer q2.correct_answer < 4) ∧
    ((add_questions [franceQ] france_state).1.rejected_duplicates = 1 ∧
     (add_questions [franceQ] france_state).1.added = 0 ∧
     (add_questions [franceQ] france_state).2 = france_state) ∧
    ((add_questions [q2, q2] france_state).1.added = 2 ∧
     (add_questions [q2, q2] france_state).1.rejected_duplicates = 0) :=
  ⟨⟨by decide, by decide, by decide, by decide, by decide, by decide, by decide,
    by decide, by decide, by decide⟩,
   C4_amended_duplicates_store_only france_state franceQ q2 (by decide) (by decide)
     (by decide) (by decide) (by decide) (by decide) (by decide) (by decide)
     (by decide) (by decide)⟩

lemma get_random_question_step (shuffle : List Nat → List Nat)
    (pick : List Question → Option Question) (now : Int) (chat : Int)
    (hchat : chat ≠ 0) (s : QMState) (xs : List Nat) (x : Nat)
    (hq : s.questions ≠ [])
    (hpool : s.available_questions chat = xs ++ [x])
    (hx : x < s.questions.length) :
    (get_random_question shuffle pick now (some chat) s).1 = s.questions[x]? ∧
    (get_random_question shuffle pick now (some chat) s).2.questions = s.questions ∧
    (get_random_question shuffle pick now (some chat) s).2.available_questions chat =
      (if xs = [] then shuffle (List.range s.questions.length) else xs) := by
  have h2 : ¬ ((some chat : Option Int) = none ∨ (some chat : Option Int) = some 0) := by
    simp [hchat]
  have hx2 : s.questions[x]? = some s.questions[x] := List.getElem?_eq_getElem hx
  refine ⟨?_, ?_, ?_⟩ <;>
    by_cases hxs : xs = [] <;>
      simp [get_random_question, initialize_available_questions, hq, h2, hchat, hpool, hx2,
        hxs, List.getLast?_concat, List.dropLast_concat, Function.update_same]

lemma run_gets_trace (shuffle : List Nat → List Nat)
    (pick : List Question → Option Question) (now : Int) (chat : Int) (hchat : chat ≠ 0) :
    ∀ (l : List Nat) (s : QMState), s.questions ≠ [] →
      s.available_questions chat = l → l ≠ [] →
      (∀ i ∈ l, i < s.questions.length) →
      (run_gets shuffle pick now chat l.length s).1 =
        l.reverse.map (fun i => s.questions[i]?) := by
  intro l
  induction l using List.reverseRecOn with
  | nil =>
    intro s _ _ hne _
    exact absurd rfl hne
  | append_singleton xs x ih =>
    intro s hq hpool _ hbound
    have hx : x < s.questions.length := hbound x (by simp)
    obtain ⟨h1, h2, h3⟩ :=
      get_random_question_step shuffle pick now chat hchat s xs x hq hpool hx
    by_cases hxs : xs = []
    · subst hxs
      simp only [List.nil_append, List.length_singleton, run_gets]
      simp [h1]
    · have hq2 : (get_random_question shuffle pick now (some chat) s).2.questions ≠ [] := by
        rw [h2]
        exact hq
      have hpool2 : (get_random_question shuffle pick now (some chat) s).2.available_questions
          chat = xs := by
        rw [h3, if_neg hxs]
      have hbound2 : ∀ i ∈ xs,
          i < (get_random_question shuffle pick now (some chat) s).2.questions.length := by
        intro i hi
        rw [h2]
        exact hbound i (by simp [hi])
      have hih := ih (get_random_question shuffle pick now (some chat) s).2 hq2 hpool2 hxs hbound2
      have hlen : (xs ++ [x]).length = xs.length + 1 := by simp
      rw [hlen]
      simp only [run_gets]
      simp [hih, h1, h2, List.reverse_append]

lemma get_random_question_fresh_eq (shuffle : List Nat → List Nat)
    (pick : List Question → Option Question) (now : Int) (chat : Int) (s : QMState)
    (hchat : chat ≠ 0) (hq : s.questions ≠ [])
    (hfresh : s.available_questions chat = [])
    (hpne : shuffle (List.range s.questions.length) ≠ []) :
    get_random_question shuffle pick now (some chat) s =
      get_random_question shuffle pick now (some chat)
        (initialize_available_questions shuffle chat s) := by
  have h2 : ¬ ((some chat : Option Int) = none ∨ (some chat : Option Int) = some 0) := by
    simp [hchat]
  simp [get_random_question, initialize_available_questions, hq, h2, hchat, hfresh, hpne,
    Function.update_same]

lemma run_gets_fresh_eq (shuffle : List Nat → List Nat)
    (pick : List Question → Option Question) (now : Int) (chat : Int) (s : QMState)
    (hchat : chat ≠ 0) (hq : s.questions ≠ [])
    (hfresh : s.available_questions chat = [])
    (hpne : shuffle (List.range s.questions.length) ≠ []) (n : Nat) :
    run_gets shuffle pick now chat (n + 1) s =
      run_gets shuffle pick now chat (n + 1)
        (initialize_available_questions shuffle chat s) := by
  simp only [run_gets]
  rw [get_random_question_fresh_eq shuffle pick now chat s hchat hq hfresh hpne]

/-- C5: for a chat with no pool yet and a store of N questions, N
successive get_random_question calls return exactly the shuffled index
permutation in reverse pop order: N pairwise distinct indices covering
the pool before any repeat is possible. -/
theorem C5_full_pass_no_repeats (shuffle : List Nat → List Nat)
    (pick : List Question → Option Question) (now : Int) (chat : Int) (s : QMState)
    (hchat : chat ≠ 0) (hfresh : s.available_questions chat = [])
    (hne : s.questions ≠ [])
    (hperm : (shuffle (List.range s.questions.length)).Perm
      (List.range s.questions.length)) :
    (run_gets shuffle pick now chat s.questions.length s).1 =
      (shuffle (List.range s.questions.length)).reverse.map (fun i => s.questions[i]?) ∧
    (shuffle (List.range s.questions.length)).reverse.Nodup ∧
    (shuffle (List.range s.questions.length)).reverse.length = s.questions.length := by
  have hplen : (shuffle (List.range s.questions.length)).length = s.questions.length := by
    rw [hperm.length_eq, List.length_range]
  have hN0 : 0 < s.questions.length := List.length_pos.mpr hne
  have hpne : shuffle (List.range s.questions.length) ≠ [] := by
    apply List.ne_nil_of_length_pos
    omega
  have hs'pool : (initialize_available_questions shuffle chat s).available_questions chat =
      shuffle (List.range s.questions.length) := by
    simp [initialize_available_questions, Function.update_same]
  have hbound : ∀ i ∈ shuffle (List.range s.questions.length), i < s.questions.length := by
    intro i hi
    exact List.mem_range.mp (hperm.mem_iff.mp hi)
  obtain ⟨m, hm⟩ : ∃ m, s.questions.length = m + 1 := ⟨s.questions.length - 1, by omega⟩
  have hbridge : run_gets shuffle pick now chat s.questions.length s =
      run_gets shuffle pick now chat s.questions.length
        (initialize_available_questions shuffle chat s) := by
    rw [hm]
    exact run_gets_fresh_eq shuffle pick now chat s hchat hne hfresh hpne m
  have htrace := run_gets_trace shuffle pick now chat hchat
    (shuffle (List.range s.questions.length))
    (initialize_available_questions shuffle chat s) hne hs'pool hpne hbound
  rw [hplen] at htrace
  refine ⟨?_, ?_, ?_⟩
  · rw [hbridge, htrace]
    rfl
  · exact List.nodup_reverse.mpr (hperm.nodup_iff.mpr (List.nodup_range _))
  · simp [hplen]

/-- Witness for C5: the two-question state with identity shuffle; the
two calls return the two stored questions, indices 1 then 0. -/
theorem C5_full_pass_no_repeats_witness :
    (1 : Int) ≠ 0 ∧
    two_question_state.available_questions 1 = [] ∧
    two_question_state.questions ≠ [] ∧
    (id (List.range two_question_state.questions.length)).Perm
      (List.range two_question_state.questions.length) ∧
    ((run_gets id (fun _ => none) 0 1 two_question_state.questions.length
        two_question_state).1 =
      (id (List.range two_question_state.questions.length)).reverse.map
        (fun i => two_question_state.questions[i]?) ∧
    (id (List.range two_question_state.questions.length)).reverse.Nodup ∧
    (id (List.range two_question_state.questions.length)).reverse.length =
      two_question_state.questions.length) :=
  ⟨by decide, rfl, by decide, List.Perm.refl _,
   C5_full_pass_no_repeats id (fun _ => none) 0 1 two_question_state (by decide) rfl
     (by decide) (List.Perm.refl _)⟩

/-- C8 counterexample: a persisted entry whose second option is the
empty string survives load_data's cleanup and validation, so the claim
that load purges entries with empty-string options is false. -/
theorem C8_counterexample :
    load_questions [bad_option_q] = [bad_option_q] ∧ "" ∈ bad_option_q.options := by
  refine ⟨rfl, by decide⟩

/-- C8 amended: every question retained by load_data has exactly 4
options and an integer correct_answer in the range 0..3; non-emptiness
of the question text or of individual options is not enforced (the text
is checked only before the /addquiz stripping and validate_question
never inspects option contents). -/
theorem C8_amended_load_validates_shape (raw : List Question) (q : Question)
    (h : q ∈ load_questions raw) :
    q.options.length = 4 ∧ 0 ≤ q.correct_answer ∧ q.correct_answer < 4 := by
  unfold load_questions remove_invalidquestions at h
  have hv := List.of_mem_filter h
  simp [validate_question] at hv
  exact ⟨hv.1.1, hv.1.2, hv.2⟩

/-- Witness for the amended C8: the France question as retained by a
load (with its correct_answer decremented to 0 by the load path). -/
theorem C8_amended_load_validates_shape_witness :
    (⟨"Capital of France?", ["London", "Paris", "Berlin", "Madrid"], 0⟩ : Question) ∈
      load_questions [franceQ] ∧
    ((⟨"Capital of France?", ["London", "Paris", "Berlin", "Madrid"], 0⟩ :
        Question).options.length = 4 ∧
     0 ≤ (⟨"Capital of France?", ["London", "Paris", "Berlin", "Madrid"], 0⟩ :
        Question).correct_answer ∧
     (⟨"Capital of France?", ["London", "Paris", "Berlin", "Madrid"], 0⟩ :
        Question).correct_answer < 4) :=
  ⟨by decide, C8_amended_load_validates_shape [franceQ] _ (by decide)⟩

end QuizManager
